import Mathlib

/-!
Shallow embedding of the ngrx-json-api core (src/services.ts and src/api.ts).

The service layer (`NgrxJsonApiService`) is modelled by pure functions that
return the list of store actions a call dispatches; the observable pipelines
built by `findOne`/`findMany` are modelled by an `ObservableModel` record
holding the actions dispatched at subscription time, the mapping applied to
each emission of `selectResults`, and the actions dispatched by the
`finally` operator when the subscription terminates.

The API layer (`NgrxJsonApi`) is modelled by pure functions from a
configuration and a query to the request options they build.  JavaScript
builtins consumed by the source (`encodeURIComponent`, `JSON.stringify`) and
the default query-parameter generators imported from `utils.ts` (a file not
part of the sources under review) are passed as explicit function
parameters.  `typeof` and strict equality on possibly-undefined values are
modelled explicitly so that the guards of the source are reproduced
faithfully; property access on an undefined object is modelled as a
JavaScript `TypeError`.
-/

/-- Model of a JavaScript value as far as the `typeof x === undefined` guards
are concerned: either the `undefined` value or a string. -/
inductive JsVal where
  | undef
  | str (s : String)
deriving DecidableEq

/-- JavaScript `typeof` applied to a possibly-undefined value: it always
returns a string (the string "undefined" for the undefined value). -/
def jsTypeof {α : Type} (v : Option α) : JsVal :=
  match v with
  | none => JsVal.str "undefined"
  | some _ => JsVal.str "object"

/-- JavaScript strict equality `===` restricted to the values of `JsVal`:
a string is never strictly equal to the undefined value. -/
def jsStrictEq : JsVal → JsVal → Bool
  | JsVal.str a, JsVal.str b => a == b
  | JsVal.undef, JsVal.undef => true
  | _, _ => false

/-- JavaScript truthiness of a possibly-undefined string: `undefined` and the
empty string are falsy. -/
def jsTruthy (v : Option String) : Bool :=
  match v with
  | none => false
  | some s => !(s == "")

/-- String coercion of a possibly-undefined string, as performed by template
literals and the `+` operator: `undefined` becomes the string "undefined". -/
def jsStr (v : Option String) : String :=
  match v with
  | none => "undefined"
  | some s => s

/-- Errors a modelled API method can produce: a `TypeError` raised by a
property access on `undefined`, or an error value pushed through
`Observable.throw`. -/
inductive JsError where
  | typeError
  | thrown (message : String)
deriving DecidableEq

/-- A type+id pair identifying a resource (src/interfaces.ts via its uses in
src/services.ts). -/
structure ResourceIdentifier where
  type : String
  id : String
deriving DecidableEq

/-- A relationship value: a reference to a single resource or to an ordered
collection of resources. -/
inductive ResourceRelationship where
  | one (identifier : ResourceIdentifier)
  | many (identifiers : List ResourceIdentifier)
deriving DecidableEq

/-- A resource: type, id, attributes and relationships.  Attribute values are
modelled as strings; the dispatch logic under verification never inspects
them. -/
structure Resource where
  type : String
  id : String
  attributes : List (String × String) := []
  relationships : List (String × ResourceRelationship) := []
deriving DecidableEq

/-- A record of the normalized store: the current local state of a resource
and the last remote-confirmed state, absent if never persisted. -/
structure StoreResource where
  resource : Resource
  persistedResource : Option Resource := none
deriving DecidableEq

/-- Query parameters.  Each key may be absent; an absent key corresponds to a
missing property on the JavaScript object. -/
structure QueryParams where
  «include» : Option (List String) := none
  filtering : Option (List (String × String)) := none
  sorting : Option (List String) := none
  fields : Option (List String) := none
  limit : Option Nat := none
  offset : Option Nat := none
deriving DecidableEq

/-- A query. All fields may be left unset by the caller. -/
structure Query where
  queryId : Option String := none
  type : Option String := none
  id : Option String := none
  queryType : Option String := none
  params : Option QueryParams := none
deriving DecidableEq

/-- A JSON API document with a single primary resource, as consumed by
`create`/`update` and carried in payloads. -/
structure Document where
  data : Resource
deriving DecidableEq

/-- A payload dispatched with the remote-sync actions. -/
structure Payload where
  query : Option Query := none
  jsonApiData : Option Document := none
deriving DecidableEq

/-- Modelled from the spec: a registration tracked by the Query Registry
(src/reducers.ts and src/interfaces.ts are not under the sources reviewed):
the query, the identifiers it currently resolves to, a loading flag and the
errors collected for it. -/
structure QueryRegistration where
  query : Query
  resultIdentifiers : List ResourceIdentifier := []
  loading : Bool := false
  errors : List String := []
deriving DecidableEq

/-- Resources of one type, keyed by id (association list). -/
abbrev NgrxJsonApiStoreResources := List (String × StoreResource)

/-- The data part of the store: records keyed by type, then by id. -/
abbrev NgrxJsonApiStoreData := List (String × NgrxJsonApiStoreResources)

/-- The store state: the normalized data and the query registry. -/
structure NgrxJsonApiStore where
  data : NgrxJsonApiStoreData := []
  queries : List (String × QueryRegistration) := []
deriving DecidableEq

/-- The actions dispatched by the service (src/actions.ts via its uses in
src/services.ts). -/
inductive NgrxJsonApiAction where
  | ApiApplyInitAction
  | ApiCreateInitAction (payload : Payload)
  | ApiReadInitAction (payload : Payload)
  | ApiUpdateInitAction (payload : Payload)
  | ApiDeleteInitAction (payload : Payload)
  | DeleteStoreResourceAction (resourceId : ResourceIdentifier)
  | PatchStoreResourceAction (resource : Resource)
  | PostStoreResourceAction (resource : Resource)
  | RemoveQueryAction (queryId : Option String)
  | QueryStoreInitAction (query : Query)
deriving DecidableEq

/-- Lookup in an association list keyed by strings, modelling indexing into a
JavaScript object. -/
def alistFind {α : Type} (entries : List (String × α)) (key : String) : Option α :=
  (entries.find? (fun p => p.1 == key)).map (fun p => p.2)

/-- Two-level lookup of a record by identifier in the store data. -/
def lookupStoreRecord (data : NgrxJsonApiStoreData) (identifier : ResourceIdentifier) :
    Option StoreResource :=
  (alistFind data identifier.type).bind (fun byType => alistFind byType identifier.id)

/-- Model of the observable returned by `findOne`/`findMany`:
the actions dispatched when the call is made, the mapping applied to each
emission of `selectResults`, and the actions dispatched by `finally` when the
subscription terminates (completion, error or unsubscribe). -/
structure ObservableModel (α : Type) where
  subscribeActions : List NgrxJsonApiAction
  emitFor : List StoreResource → Except String α
  finalizeActions : List NgrxJsonApiAction

/-- `NgrxJsonApiService.findInternal` (src/services.ts:84-94): the actions it
dispatches.  The source defaults `fromServer` to `true`. -/
def findInternal (query : Query) (fromServer : Bool) : List NgrxJsonApiAction :=
  if fromServer then
    [NgrxJsonApiAction.ApiReadInitAction { query := some query }]
  else
    [NgrxJsonApiAction.QueryStoreInitAction query]

/-- `NgrxJsonApiService.removeQuery` (src/services.ts:80-82): the actions it
dispatches. -/
def removeQuery (queryId : Option String) : List NgrxJsonApiAction :=
  [NgrxJsonApiAction.RemoveQueryAction queryId]

/-- `NgrxJsonApiService.findOne` (src/services.ts:53-69).  The source first
overwrites `query.queryType` with "getOne" on the caller's object, then calls
`findInternal`, and returns the `selectResults` observable mapped through the
cardinality check and finalized with `removeQuery`.  The first component is
the caller's query object after the call (the source mutates it in place);
the source defaults `fromServer` to `true` and `resource` to `false`. -/
def findOne (query : Query) (fromServer : Bool) (resource : Bool) :
    Query × ObservableModel (Option (Sum Resource StoreResource)) :=
  let q := { query with queryType := some "getOne" }
  (q,
    { subscribeActions := findInternal q fromServer,
      emitFor := fun it =>
        match it with
        | [] => Except.ok none
        | [r] => Except.ok (some (if resource then Sum.inl r.resource else Sum.inr r))
        | _ => Except.error "Unique result expected",
      finalizeActions := removeQuery q.queryId })

/-- `NgrxJsonApiService.findMany` (src/services.ts:71-78).  Same shape as
`findOne`, with `queryType` overwritten with "getMany" and every emission
mapped elementwise. -/
def findMany (query : Query) (fromServer : Bool) (resource : Bool) :
    Query × ObservableModel (Sum (List Resource) (List StoreResource)) :=
  let q := { query with queryType := some "getMany" }
  (q,
    { subscribeActions := findInternal q fromServer,
      emitFor := fun it =>
        Except.ok (if resource then Sum.inl (it.map (fun r => r.resource)) else Sum.inr it),
      finalizeActions := removeQuery q.queryId })

/-- `NgrxJsonApiService.getResourceSnapshot` (src/services.ts:102-108): reads
the current snapshot; a pure function of the snapshot, the store is not
touched. -/
def getResourceSnapshot (storeSnapshot : NgrxJsonApiStore) (identifier : ResourceIdentifier) :
    Option Resource :=
  match alistFind storeSnapshot.data identifier.type with
  | some byType =>
    match alistFind byType identifier.id with
    | some record => some record.resource
    | none => none
  | none => none

/-- `NgrxJsonApiService.getPersistedResourceSnapshot` (src/services.ts:116-122):
reads the current snapshot; a pure function of the snapshot, the store is not
touched. -/
def getPersistedResourceSnapshot (storeSnapshot : NgrxJsonApiStore)
    (identifier : ResourceIdentifier) : Option Resource :=
  match alistFind storeSnapshot.data identifier.type with
  | some byType =>
    match alistFind byType identifier.id with
    | some record => record.persistedResource
    | none => none
  | none => none

/-- `NgrxJsonApiService.patchResource` (src/services.ts:189-210): the actions
it dispatches.  The source defaults `toRemote` to `false`. -/
def patchResource (resource : Resource) (toRemote : Bool) : List NgrxJsonApiAction :=
  if toRemote then
    [NgrxJsonApiAction.ApiUpdateInitAction
      { jsonApiData := some
          { data :=
            { id := resource.id,
              type := resource.type,
              attributes := resource.attributes,
              relationships := resource.relationships } },
        query := some
          { queryType := some "update",
            type := some resource.type,
            id := some resource.id } }]
  else
    [NgrxJsonApiAction.PatchStoreResourceAction resource]

/-- `NgrxJsonApiService.postResource` (src/services.ts:219-239): the actions
it dispatches.  The source defaults `toRemote` to `false`. -/
def postResource (resource : Resource) (toRemote : Bool) : List NgrxJsonApiAction :=
  if toRemote then
    [NgrxJsonApiAction.ApiCreateInitAction
      { jsonApiData := some
          { data :=
            { id := resource.id,
              type := resource.type,
              attributes := resource.attributes,
              relationships := resource.relationships } },
        query := some
          { queryType := some "create",
            type := some resource.type } }]
  else
    [NgrxJsonApiAction.PostStoreResourceAction resource]

/-- `NgrxJsonApiService.deleteResource` (src/services.ts:246-259): the actions
it dispatches.  The source defaults `toRemote` to `false`. -/
def deleteResource (resourceId : ResourceIdentifier) (toRemote : Bool) : List NgrxJsonApiAction :=
  if toRemote then
    [NgrxJsonApiAction.ApiDeleteInitAction
      { query := some
          { queryType := some "deleteOne",
            type := some resourceId.type,
            id := some resourceId.id } }]
  else
    [NgrxJsonApiAction.DeleteStoreResourceAction resourceId]

/-- Modelled from the spec: the reducer handling `RemoveQueryAction`
(src/reducers.ts is not under the sources reviewed) removes the query's
registration from the registry; removing an absent id is a no-op. -/
def removeQueryFromRegistry (queries : List (String × QueryRegistration)) (queryId : String) :
    List (String × QueryRegistration) :=
  queries.filter (fun p => !(p.1 == queryId))

/-- A resource definition from the configuration (type plus the collection
path it is served under). -/
structure ResourceDefinition where
  type : String
  collectionPath : String
deriving DecidableEq

/-- The default query-parameter generators imported by src/api.ts from
src/utils.ts (a file not part of the sources under review); they are passed
to the model as explicit parameters. -/
structure Generators where
  generateIncludedQueryParams : List String → String
  generateFilteringQueryParams : List (String × String) → String
  generateSortingQueryParams : List String → String
  generateFieldsQueryParams : List String → String
  generateQueryParams : String → String → String → String → String → String → String

/-- The optional per-concern generator overrides of `config.urlBuilder`
(src/api.ts:106-124); an absent field is a missing (falsy) property. -/
structure UrlBuilderConfig where
  generateIncludedQueryParams : Option (List String → String) := none
  generateFilteringQueryParams : Option (List (String × String) → String) := none
  generateSortingQueryParams : Option (List String → String) := none
  generateFieldsQueryParams : Option (List String → String) := none
  generateQueryParams : Option (String → String → String → String → String → String → String) := none

/-- The configuration of `NgrxJsonApi` (src/api.ts). -/
structure NgrxJsonApiConfig where
  apiUrl : String
  resourceDefinitions : List ResourceDefinition := []
  urlBuilder : Option UrlBuilderConfig := none

/-- JavaScript builtins used by src/api.ts, passed to the model as explicit
parameters: `encodeURIComponent` and the serialization
`JSON.stringify(\x7b data: document.data \x7d)` of a request body. -/
structure Builtins where
  encodeURIComponent : String → String
  jsonStringifyData : Resource → String

/-- The HTTP method of a request (RequestMethod of @angular/http). -/
inductive RequestMethod where
  | Get
  | Post
  | Patch
  | Delete
deriving DecidableEq

/-- The request options handed to the HTTP layer by src/api.ts. -/
structure RequestOptionsArgs where
  method : RequestMethod
  url : String
  body : Option String := none
deriving DecidableEq

/-- `NgrxJsonApi.collectionPathFor` (src/api.ts:73-81): the configured
collection path of the type, or the type itself when not configured. -/
def collectionPathFor (config : NgrxJsonApiConfig) (type : Option String) : Option String :=
  match config.resourceDefinitions.find? (fun d => type == some d.type) with
  | some d => some d.collectionPath
  | none => type

/-- `NgrxJsonApi.collectionUrlFor` (src/api.ts:83-86). -/
def collectionUrlFor (config : NgrxJsonApiConfig) (type : Option String) : String :=
  config.apiUrl ++ "/" ++ jsStr (collectionPathFor config type)

/-- `NgrxJsonApi.resourcePathFor` (src/api.ts:88-91). -/
def resourcePathFor (config : NgrxJsonApiConfig) (b : Builtins) (type : Option String)
    (id : Option String) : String :=
  jsStr (collectionPathFor config type) ++ "/" ++ b.encodeURIComponent (jsStr id)

/-- `NgrxJsonApi.resourceUrlFor` (src/api.ts:93-96). -/
def resourceUrlFor (config : NgrxJsonApiConfig) (b : Builtins) (type : Option String)
    (id : Option String) : String :=
  config.apiUrl ++ "/" ++ resourcePathFor config b type id

/-- The tail of the `switch` of `NgrxJsonApi.urlBuilder` from its POST case
(src/api.ts:66-68): it returns the collection URL unconditionally. -/
def urlBuilderPostCase (config : NgrxJsonApiConfig) (query : Query) : Option String :=
  some (collectionUrlFor config query.type)

/-- The tail of the `switch` of `NgrxJsonApi.urlBuilder` from its PATCH case
(src/api.ts:61-68): the PATCH case has no `break` and falls through to the
POST case when its condition fails. -/
def urlBuilderPatchCase (config : NgrxJsonApiConfig) (b : Builtins) (query : Query) :
    Option String :=
  if jsTruthy query.type && jsTruthy query.id then
    some (resourceUrlFor config b query.type query.id)
  else
    urlBuilderPostCase config query

/-- The tail of the `switch` of `NgrxJsonApi.urlBuilder` from its DELETE case
(src/api.ts:56-68): the DELETE case has no `break` and falls through to the
PATCH case when its condition fails. -/
def urlBuilderDeleteCase (config : NgrxJsonApiConfig) (b : Builtins) (query : Query) :
    Option String :=
  if jsTruthy query.type && jsTruthy query.id then
    some (resourceUrlFor config b query.type query.id)
  else
    urlBuilderPatchCase config b query

/-- `NgrxJsonApi.urlBuilder` (src/api.ts:47-71).  None of the cases ends in a
`break`, so a case whose conditions all fail falls through to the next case;
an unknown operation reaches the end of the function and yields `undefined`
(`none`). -/
def urlBuilder (config : NgrxJsonApiConfig) (b : Builtins) (query : Query)
    (operation : String) : Option String :=
  if operation == "GET" then
    if jsTruthy query.type && jsTruthy query.id then
      some (resourceUrlFor config b query.type query.id)
    else if jsTruthy query.type then
      some (collectionUrlFor config query.type)
    else
      urlBuilderDeleteCase config b query
  else if operation == "DELETE" then
    urlBuilderDeleteCase config b query
  else if operation == "PATCH" then
    urlBuilderPatchCase config b query
  else if operation == "POST" then
    urlBuilderPostCase config query
  else
    none

/-- The parameter string produced for one concern: the generator applied to
the value when the key is present, and the empty string otherwise. -/
def concernParam {α : Type} (gen : α → String) (value : Option α) : String :=
  match value with
  | some v => gen v
  | none => ""

/-- The `_.isEmpty(query.params)` check of src/api.ts:138 on a present params
object: true when the object has no own keys. -/
def isEmptyQueryParams (p : QueryParams) : Bool :=
  p.«include».isNone && p.filtering.isNone && p.sorting.isNone &&
    p.fields.isNone && p.limit.isNone && p.offset.isNone

/-- `NgrxJsonApi.find` (src/api.ts:98-167).  The five local generator
variables are initialized with the defaults and conditionally overwritten
from `config.urlBuilder` (lines 100-124); the `typeof query === undefined`
guard (line 134) is transcribed verbatim via `jsTypeof`/`jsStrictEq`; a
caller-supplied `undefined` query reaches `query.hasOwnProperty` (line 138)
and raises a `TypeError`.  Param strings start out empty and are filled per
concern when the corresponding key is present (lines 138-157, the guarded
assignment per concern being `concernParam`), and the final URL concatenates
`urlBuilder` with the assembled query params (line 163). -/
def find (g : Generators) (b : Builtins) (config : NgrxJsonApiConfig)
    (query : Option Query) : Except JsError RequestOptionsArgs :=
  let genIncluded :=
    match config.urlBuilder with
    | some ub =>
      match ub.generateIncludedQueryParams with
      | some f => f
      | none => g.generateIncludedQueryParams
    | none => g.generateIncludedQueryParams
  let genFiltering :=
    match config.urlBuilder with
    | some ub =>
      match ub.generateFilteringQueryParams with
      | some f => f
      | none => g.generateFilteringQueryParams
    | none => g.generateFilteringQueryParams
  let genSorting :=
    match config.urlBuilder with
    | some ub =>
      match ub.generateSortingQueryParams with
      | some f => f
      | none => g.generateSortingQueryParams
    | none => g.generateSortingQueryParams
  let genFields :=
    match config.urlBuilder with
    | some ub =>
      match ub.generateFieldsQueryParams with
      | some f => f
      | none => g.generateFieldsQueryParams
    | none => g.generateFieldsQueryParams
  let genQuery :=
    match config.urlBuilder with
    | some ub =>
      match ub.generateQueryParams with
      | some f => f
      | none => g.generateQueryParams
    | none => g.generateQueryParams
  if jsStrictEq (jsTypeof query) JsVal.undef then
    Except.error (JsError.thrown "Query not found")
  else
    match query with
    | none => Except.error JsError.typeError
    | some q =>
      match q.params with
      | none =>
        Except.ok
          { method := RequestMethod.Get,
            url := jsStr (urlBuilder config b q "GET") ++ genQuery "" "" "" "" "" "",
            body := none }
      | some p =>
        if isEmptyQueryParams p then
          Except.ok
            { method := RequestMethod.Get,
              url := jsStr (urlBuilder config b q "GET") ++ genQuery "" "" "" "" "" "",
              body := none }
        else
          let includedParam := concernParam genIncluded p.«include»
          let filteringParams := concernParam genFiltering p.filtering
          let sortingParams := concernParam genSorting p.sorting
          let fieldsParams := concernParam genFields p.fields
          let limitParams := concernParam (fun v => "page[limit]=" ++ toString v) p.limit
          let offsetParams := concernParam (fun v => "page[offset]=" ++ toString v) p.offset
          Except.ok
            { method := RequestMethod.Get,
              url := jsStr (urlBuilder config b q "GET") ++
                genQuery includedParam filteringParams sortingParams fieldsParams
                  offsetParams limitParams,
              body := none }

/-- `NgrxJsonApi.create` (src/api.ts:169-186).  The two `typeof` guards are
transcribed verbatim; an undefined query reaches `query.type` inside
`urlBuilder` and an undefined document reaches `document.data`, both raising
a `TypeError`. -/
def create (b : Builtins) (config : NgrxJsonApiConfig) (query : Option Query)
    (document : Option Document) : Except JsError RequestOptionsArgs :=
  if jsStrictEq (jsTypeof query) JsVal.undef then
    Except.error (JsError.thrown "Query not found")
  else if jsStrictEq (jsTypeof document) JsVal.undef then
    Except.error (JsError.thrown "Data not found")
  else
    match query with
    | none => Except.error JsError.typeError
    | some q =>
      match document with
      | none => Except.error JsError.typeError
      | some d =>
        Except.ok
          { method := RequestMethod.Post,
            url := jsStr (urlBuilder config b q "POST"),
            body := some (b.jsonStringifyData d.data) }

/-- `NgrxJsonApi.update` (src/api.ts:188-204), analogous to `create` with the
PATCH operation. -/
def update (b : Builtins) (config : NgrxJsonApiConfig) (query : Option Query)
    (document : Option Document) : Except JsError RequestOptionsArgs :=
  if jsStrictEq (jsTypeof query) JsVal.undef then
    Except.error (JsError.thrown "Query not found")
  else if jsStrictEq (jsTypeof document) JsVal.undef then
    Except.error (JsError.thrown "Data not found")
  else
    match query with
    | none => Except.error JsError.typeError
    | some q =>
      match document with
      | none => Except.error JsError.typeError
      | some d =>
        Except.ok
          { method := RequestMethod.Patch,
            url := jsStr (urlBuilder config b q "PATCH"),
            body := some (b.jsonStringifyData d.data) }

/-- `NgrxJsonApi.delete` (src/api.ts:207-219). -/
def delete (b : Builtins) (config : NgrxJsonApiConfig) (query : Option Query) :
    Except JsError RequestOptionsArgs :=
  if jsStrictEq (jsTypeof query) JsVal.undef then
    Except.error (JsError.thrown "Query not found")
  else
    match query with
    | none => Except.error JsError.typeError
    | some q =>
      Except.ok
        { method := RequestMethod.Delete,
          url := jsStr (urlBuilder config b q "DELETE"),
          body := none }

/-- The per-concern generators effectively used by `find`: the configured
generator when `config.urlBuilder` provides one, and the default otherwise.
This is the specification-style characterization the theorem about `find`
compares against the inline selection logic transcribed from the source. -/
def effectiveGenerators (g : Generators) (config : NgrxJsonApiConfig) : Generators :=
  match config.urlBuilder with
  | none => g
  | some ub =>
    { generateIncludedQueryParams :=
        ub.generateIncludedQueryParams.getD g.generateIncludedQueryParams,
      generateFilteringQueryParams :=
        ub.generateFilteringQueryParams.getD g.generateFilteringQueryParams,
      generateSortingQueryParams :=
        ub.generateSortingQueryParams.getD g.generateSortingQueryParams,
      generateFieldsQueryParams :=
        ub.generateFieldsQueryParams.getD g.generateFieldsQueryParams,
      generateQueryParams :=
        ub.generateQueryParams.getD g.generateQueryParams }


/-- The identifier of a resource. -/
def ridOf (r : Resource) : ResourceIdentifier :=
  { type := r.type, id := r.id }

/-- All identifiers that have a record in the store data. -/
def storeIds (data : NgrxJsonApiStoreData) : List ResourceIdentifier :=
  data.flatMap (fun byType => byType.2.map (fun entry => { type := byType.1, id := entry.1 }))

/-- The number of store identifiers not yet on the current expansion path;
the termination measure of the denormalizer. -/
def remainingIds (data : NgrxJsonApiStoreData) (visited : List ResourceIdentifier) : Nat :=
  ((storeIds data).toFinset \ visited.toFinset).card

theorem mem_storeIds_of_lookup (data : NgrxJsonApiStoreData) (i : ResourceIdentifier)
    (sr : StoreResource) (hl : lookupStoreRecord data i = some sr) : i ∈ storeIds data := by
  unfold lookupStoreRecord alistFind at hl
  rcases ho : (data.find? (fun p => p.1 == i.type)) with _ | ⟨t, byType⟩
  · rw [ho] at hl
    simp at hl
  · rw [ho] at hl
    simp only [Option.map_some', Option.some_bind] at hl
    rcases hi : (byType.find? (fun p => p.1 == i.id)) with _ | ⟨n, rec⟩
    · rw [hi] at hl
      simp at hl
    · have hmem1 : (t, byType) ∈ data := List.mem_of_find?_eq_some ho
      have ht : t = i.type := by
        have := List.find?_some ho
        simpa using this
      have hmem2 : (n, rec) ∈ byType := List.mem_of_find?_eq_some hi
      have hn : n = i.id := by
        have := List.find?_some hi
        simpa using this
      unfold storeIds
      rw [List.mem_flatMap]
      refine ⟨(t, byType), hmem1, ?_⟩
      rw [List.mem_map]
      exact ⟨(n, rec), hmem2, by rw [ht, hn]⟩

theorem remainingIds_lt (data : NgrxJsonApiStoreData) (visited : List ResourceIdentifier)
    (i : ResourceIdentifier) (sr : StoreResource) (hv : ¬ i ∈ visited)
    (hl : lookupStoreRecord data i = some sr) :
    remainingIds data (i :: visited) < remainingIds data visited := by
  unfold remainingIds
  rw [List.toFinset_cons, Finset.sdiff_insert]
  apply Finset.card_erase_lt_of_mem
  rw [Finset.mem_sdiff]
  exact ⟨List.mem_toFinset.mpr (mem_storeIds_of_lookup data i sr hl),
    fun h => hv (List.mem_toFinset.mp h)⟩

mutual

/-- The result of denormalization: a relationship graph expanded into nested
resources.  `placeholder` is the reference-only placeholder substituted when
an identifier already on the current expansion path is revisited;
`unresolved` is the explicit marker for a reference whose resource is absent
from the store; `node` is an expanded resource together with its expanded
relationships. -/
inductive Denorm where
  | placeholder (identifier : ResourceIdentifier)
  | unresolved (identifier : ResourceIdentifier)
  | node (resource : Resource) (relationships : List (String × DenormRel))

/-- An expanded relationship value: a single expanded reference or an ordered
collection of them. -/
inductive DenormRel where
  | one (d : Denorm)
  | many (ds : List Denorm)

end

/-- Modelled from the spec: the recursive expansion underlying
`denormaliseResource` of src/utils.ts (a file not part of the sources under
review).  It expands the identifier `i` against the store data, maintaining
the list of identifiers on the current expansion path: a revisited identifier
yields the reference-only `placeholder`, a reference absent from the store
yields the `unresolved` marker, and otherwise the record's current resource
is expanded into a `node` with `i` added to the path.  The recursion is
well-founded because every step adds to the path an identifier that has a
record in the store and was not yet on the path. -/
def denormId (data : NgrxJsonApiStoreData) (visited : List ResourceIdentifier)
    (i : ResourceIdentifier) : Denorm :=
  if hv : i ∈ visited then
    Denorm.placeholder i
  else
    match hl : lookupStoreRecord data i with
    | none => Denorm.unresolved i
    | some sr =>
      Denorm.node sr.resource
        (sr.resource.relationships.map (fun nr =>
          (nr.1,
            match nr.2 with
            | ResourceRelationship.one j =>
              DenormRel.one (denormId data (i :: visited) j)
            | ResourceRelationship.many js =>
              DenormRel.many (js.map (fun j => denormId data (i :: visited) j)))))
termination_by remainingIds data visited
decreasing_by
  all_goals exact remainingIds_lt data visited i sr hv hl

/-- Modelled from the spec: `denormaliseResource` of src/utils.ts (a file not
part of the sources under review).  The given record's current resource is
the root of the expansion; its relationships are expanded against the store
data with the root identifier as the initial expansion path. -/
def denormaliseResource (storeResource : StoreResource) (storeData : NgrxJsonApiStoreData) :
    Denorm :=
  Denorm.node storeResource.resource
    (storeResource.resource.relationships.map (fun nr =>
      (nr.1,
        match nr.2 with
        | ResourceRelationship.one j =>
          DenormRel.one (denormId storeData [ridOf storeResource.resource] j)
        | ResourceRelationship.many js =>
          DenormRel.many (js.map (fun j =>
            denormId storeData [ridOf storeResource.resource] j)))))

/-- A sample set of default generators, used by concrete witnesses. -/
def sampleGenerators : Generators :=
  { generateIncludedQueryParams := fun _ => "",
    generateFilteringQueryParams := fun _ => "",
    generateSortingQueryParams := fun _ => "",
    generateFieldsQueryParams := fun _ => "",
    generateQueryParams := fun a c s f o l => a ++ c ++ s ++ f ++ o ++ l }

/-- Sample JavaScript builtins, used by concrete witnesses. -/
def sampleBuiltins : Builtins :=
  { encodeURIComponent := fun s => s,
    jsonStringifyData := fun _ => "" }

/-- A sample configuration, used by concrete witnesses. -/
def sampleConfig : NgrxJsonApiConfig :=
  { apiUrl := "http://example.org" }

/-- A sample query, used by concrete witnesses. -/
def sampleQuery : Query :=
  { queryId := some "q1", type := some "Article", id := some "1" }

/-- A sample document, used by concrete witnesses. -/
def sampleDocument : Document :=
  { data := { type := "Article", id := "1" } }

/-- Claim C1: the observable returned by `findOne` emits `null` (modelled
`none`) when the query's result set is empty, emits the single matching
record — or its `resource` when the resource flag is set — when the result
set has exactly one element, and signals the non-unique-result error
("Unique result expected") when the result set has two or more elements. -/
theorem findOne_result_cardinality (query : Query) (fromServer resourceFlag : Bool)
    (r r' : StoreResource) (rest : List StoreResource) :
    (findOne query fromServer resourceFlag).2.emitFor [] = Except.ok none ∧
    (findOne query fromServer resourceFlag).2.emitFor [r] =
      Except.ok (some (if resourceFlag then Sum.inl r.resource else Sum.inr r)) ∧
    (findOne query fromServer resourceFlag).2.emitFor (r :: r' :: rest) =
      Except.error "Unique result expected" :=
  ⟨rfl, rfl, rfl⟩

/-- Claim C2: with `toRemote = false`, `patchResource`, `postResource` and
`deleteResource` dispatch exactly the corresponding local store mutation and
nothing else; with `toRemote = true` they dispatch exactly the corresponding
remote-sync init action carrying the resource's data, with no local store
mutation queued for `apply()`. -/
theorem local_vs_remote_mutations (resource : Resource) (resourceId : ResourceIdentifier) :
    patchResource resource false = [NgrxJsonApiAction.PatchStoreResourceAction resource] ∧
    postResource resource false = [NgrxJsonApiAction.PostStoreResourceAction resource] ∧
    deleteResource resourceId false =
      [NgrxJsonApiAction.DeleteStoreResourceAction resourceId] ∧
    patchResource resource true =
      [NgrxJsonApiAction.ApiUpdateInitAction
        { jsonApiData := some
            { data :=
              { id := resource.id, type := resource.type,
                attributes := resource.attributes,
                relationships := resource.relationships } },
          query := some
            { queryType := some "update", type := some resource.type,
              id := some resource.id } }] ∧
    postResource resource true =
      [NgrxJsonApiAction.ApiCreateInitAction
        { jsonApiData := some
            { data :=
              { id := resource.id, type := resource.type,
                attributes := resource.attributes,
                relationships := resource.relationships } },
          query := some
            { queryType := some "create", type := some resource.type } }] ∧
    deleteResource resourceId true =
      [NgrxJsonApiAction.ApiDeleteInitAction
        { query := some
            { queryType := some "deleteOne", type := some resourceId.type,
              id := some resourceId.id } }] :=
  ⟨rfl, rfl, rfl, rfl, rfl, rfl⟩

/-- Claim C3: when the observable returned by `findOne` or `findMany`
terminates (including unsubscription), the `finally` operator dispatches
exactly a `RemoveQueryAction` for the query's id; applying the registry
removal for an id leaves no entry under that id, and removing again is a
no-op. -/
theorem query_removed_on_finalize (query : Query) (fromServer resourceFlag : Bool)
    (queries : List (String × QueryRegistration)) (queryId : String) :
    (findOne query fromServer resourceFlag).2.finalizeActions =
      [NgrxJsonApiAction.RemoveQueryAction query.queryId] ∧
    (findMany query fromServer resourceFlag).2.finalizeActions =
      [NgrxJsonApiAction.RemoveQueryAction query.queryId] ∧
    alistFind (removeQueryFromRegistry queries queryId) queryId = none ∧
    removeQueryFromRegistry (removeQueryFromRegistry queries queryId) queryId =
      removeQueryFromRegistry queries queryId := by
  refine ⟨rfl, rfl, ?_, ?_⟩
  · unfold alistFind removeQueryFromRegistry
    have h : (queries.filter (fun p => !(p.1 == queryId))).find?
        (fun p => p.1 == queryId) = none := by
      rw [List.find?_eq_none]
      intro x hx
      have hmem := (List.mem_filter.mp hx).2
      simpa using hmem
    rw [h]
    rfl
  · unfold removeQueryFromRegistry
    rw [List.filter_filter]
    simp

/-- Claim C5: `getResourceSnapshot` returns exactly the `resource` of the
record stored under the identifier, and `getPersistedResourceSnapshot`
exactly its `persistedResource`, both `none` (null) when no record exists
under that identifier; both are pure functions of the snapshot and cannot
mutate the store. -/
theorem resource_snapshots_characterization (storeSnapshot : NgrxJsonApiStore)
    (identifier : ResourceIdentifier) :
    getResourceSnapshot storeSnapshot identifier =
      (lookupStoreRecord storeSnapshot.data identifier).map
        (fun record => record.resource) ∧
    getPersistedResourceSnapshot storeSnapshot identifier =
      (lookupStoreRecord storeSnapshot.data identifier).bind
        (fun record => record.persistedResource) := by
  constructor
  all_goals
    rcases h1 : alistFind storeSnapshot.data identifier.type with _ | byType
    · simp [getResourceSnapshot, getPersistedResourceSnapshot, lookupStoreRecord, h1]
    · rcases h2 : alistFind byType identifier.id with _ | record <;>
        simp [getResourceSnapshot, getPersistedResourceSnapshot, lookupStoreRecord, h1, h2]

/-- Claim C6: `findInternal` with `fromServer = true` dispatches exactly an
`ApiReadInitAction` whose payload carries the query, and with
`fromServer = false` dispatches exactly a `QueryStoreInitAction` with no
remote read; `findOne` and `findMany` dispatch accordingly (with the query
whose `queryType` they set). -/
theorem findInternal_dispatch (query : Query) (resourceFlag : Bool) :
    findInternal query true =
      [NgrxJsonApiAction.ApiReadInitAction { query := some query, jsonApiData := none }] ∧
    findInternal query false = [NgrxJsonApiAction.QueryStoreInitAction query] ∧
    (findOne query true resourceFlag).2.subscribeActions =
      [NgrxJsonApiAction.ApiReadInitAction
        { query := some { query with queryType := some "getOne" }, jsonApiData := none }] ∧
    (findOne query false resourceFlag).2.subscribeActions =
      [NgrxJsonApiAction.QueryStoreInitAction { query with queryType := some "getOne" }] ∧
    (findMany query true resourceFlag).2.subscribeActions =
      [NgrxJsonApiAction.ApiReadInitAction
        { query := some { query with queryType := some "getMany" }, jsonApiData := none }] ∧
    (findMany query false resourceFlag).2.subscribeActions =
      [NgrxJsonApiAction.QueryStoreInitAction { query with queryType := some "getMany" }] :=
  ⟨rfl, rfl, rfl, rfl, rfl, rfl⟩

/-- Claim C8: `findOne` overwrites the caller-supplied query's `queryType`
with "getOne" and `findMany` with "getMany", regardless of any value the
caller set; all other fields of the query are left unchanged. -/
theorem find_overwrites_queryType (query : Query) (fromServer resourceFlag : Bool) :
    (findOne query fromServer resourceFlag).1 = { query with queryType := some "getOne" } ∧
    (findMany query fromServer resourceFlag).1 = { query with queryType := some "getMany" } :=
  ⟨rfl, rfl⟩

theorem denormId_placeholder_of_mem (data : NgrxJsonApiStoreData)
    (visited : List ResourceIdentifier) (i : ResourceIdentifier) (h : i ∈ visited) :
    denormId data visited i = Denorm.placeholder i := by
  unfold denormId
  simp [h]

/-- Claim C4: denormalization is a total function on every store and record
(it is defined by well-founded recursion on the identifiers not yet on the
expansion path, so it terminates on cyclic relationship graphs), and
revisiting an identifier already on the current expansion path substitutes
the reference-only placeholder; in particular a record whose relationship
refers back to the record itself denormalizes to a node carrying the
placeholder, with no further expansion. -/
theorem denormalise_cycle_placeholder (data : NgrxJsonApiStoreData)
    (pre post : List ResourceIdentifier) (i : ResourceIdentifier)
    (type id : String) (attributes : List (String × String)) (name : String)
    (persisted : Option Resource) :
    denormId data (pre ++ i :: post) i = Denorm.placeholder i ∧
    denormaliseResource
      { resource :=
          { type := type, id := id, attributes := attributes,
            relationships :=
              [(name, ResourceRelationship.one { type := type, id := id })] },
        persistedResource := persisted } data =
      Denorm.node
        { type := type, id := id, attributes := attributes,
          relationships :=
            [(name, ResourceRelationship.one { type := type, id := id })] }
        [(name, DenormRel.one (Denorm.placeholder { type := type, id := id }))] := by
  constructor
  · exact denormId_placeholder_of_mem data _ i (by simp)
  · unfold denormaliseResource
    simp only [List.map_cons, List.map_nil]
    rw [denormId_placeholder_of_mem data _ _ (by simp [ridOf])]

/-- Claim C10: when the query's id is not set, `urlBuilder` invoked with
operation "DELETE" or "PATCH" falls through the `switch` to the "POST" case
and returns the collection URL for the query's type, rather than `undefined`
or an error; when both type and id are set, "GET", "DELETE" and "PATCH" all
return the single-resource URL. -/
theorem urlBuilder_fallthrough (config : NgrxJsonApiConfig) (b : Builtins) (query : Query) :
    (jsTruthy query.id = false →
      urlBuilder config b query "DELETE" = some (collectionUrlFor config query.type) ∧
      urlBuilder config b query "PATCH" = some (collectionUrlFor config query.type)) ∧
    (jsTruthy query.type = true → jsTruthy query.id = true →
      urlBuilder config b query "GET" =
        some (resourceUrlFor config b query.type query.id) ∧
      urlBuilder config b query "DELETE" =
        some (resourceUrlFor config b query.type query.id) ∧
      urlBuilder config b query "PATCH" =
        some (resourceUrlFor config b query.type query.id)) := by
  constructor
  · intro hid
    unfold urlBuilder urlBuilderDeleteCase urlBuilderPatchCase urlBuilderPostCase
    simp [hid]
  · intro ht hid
    unfold urlBuilder urlBuilderDeleteCase urlBuilderPatchCase
    simp [ht, hid]

/-- Witness for claim C10, at a concrete configuration and query. -/
theorem urlBuilder_fallthrough_witness :
    urlBuilder sampleConfig sampleBuiltins { type := some "Article" } "DELETE" =
      some (collectionUrlFor sampleConfig (some "Article")) ∧
    urlBuilder sampleConfig sampleBuiltins
        { type := some "Article", id := some "1" } "GET" =
      some (resourceUrlFor sampleConfig sampleBuiltins (some "Article") (some "1")) :=
  ⟨((urlBuilder_fallthrough sampleConfig sampleBuiltins { type := some "Article" }).1
      (by decide)).1,
   ((urlBuilder_fallthrough sampleConfig sampleBuiltins
      { type := some "Article", id := some "1" }).2 (by decide) (by decide)).1⟩

theorem find_none_eq (g : Generators) (b : Builtins) (config : NgrxJsonApiConfig) :
    find g b config none = Except.error JsError.typeError := rfl

theorem find_some_isOk (g : Generators) (b : Builtins) (config : NgrxJsonApiConfig)
    (q : Query) : (find g b config (some q)).isOk = true := by
  cases hq : q.params with
  | none => simp [find, hq, jsTypeof, jsStrictEq, Except.isOk, Except.toBool]
  | some p =>
    by_cases he : isEmptyQueryParams p <;>
      simp [find, hq, he, jsTypeof, jsStrictEq, Except.isOk, Except.toBool]

/-- Claim C9 counterexample: with an undefined query the method does not
issue an HTTP request: `find` raises a `TypeError` when the undefined
query's `hasOwnProperty` is accessed, so no request is built (and the error
is not the 'Query not found' branch either). -/
theorem find_undefined_query_counterexample :
    find sampleGenerators sampleBuiltins sampleConfig none =
      Except.error JsError.typeError ∧
    (find sampleGenerators sampleBuiltins sampleConfig none).isOk = false :=
  ⟨rfl, rfl⟩

/-- Claim C9 (amended): the 'Query not found' and 'Data not found' error
branches of `find`, `create`, `update` and `delete` are unreachable for
every input, because each guard compares the string result of `typeof` with
the undefined value; with a defined query (and document) the methods proceed
to build and issue the HTTP request, while an undefined query or document
causes a `TypeError` at the subsequent property access rather than the
guard error. -/
theorem typeof_guards_unreachable (g : Generators) (b : Builtins)
    (config : NgrxJsonApiConfig) (query : Option Query) (document : Option Document)
    (q : Query) (d : Document) :
    find g b config query ≠ Except.error (JsError.thrown "Query not found") ∧
    create b config query document ≠ Except.error (JsError.thrown "Query not found") ∧
    create b config query document ≠ Except.error (JsError.thrown "Data not found") ∧
    update b config query document ≠ Except.error (JsError.thrown "Query not found") ∧
    update b config query document ≠ Except.error (JsError.thrown "Data not found") ∧
    delete b config query ≠ Except.error (JsError.thrown "Query not found") ∧
    (find g b config (some q)).isOk = true ∧
    (create b config (some q) (some d)).isOk = true ∧
    (update b config (some q) (some d)).isOk = true ∧
    (delete b config (some q)).isOk = true := by
  refine ⟨?_, ?_, ?_, ?_, ?_, ?_, find_some_isOk g b config q, rfl, rfl, rfl⟩
  · cases query with
    | none => rw [find_none_eq]; simp
    | some q' =>
      have h := find_some_isOk g b config q'
      intro hcontra
      rw [hcontra] at h
      simp [Except.isOk, Except.toBool] at h
  all_goals cases query <;> cases document <;> simp [create, update, delete, jsTypeof, jsStrictEq]

/-- Witness for claim C9 (amended), at concrete inputs. -/
theorem typeof_guards_unreachable_witness :
    (find sampleGenerators sampleBuiltins sampleConfig (some sampleQuery)).isOk = true ∧
    (create sampleBuiltins sampleConfig (some sampleQuery) (some sampleDocument)).isOk =
      true ∧
    (delete sampleBuiltins sampleConfig (some sampleQuery)).isOk = true :=
  ⟨(typeof_guards_unreachable sampleGenerators sampleBuiltins sampleConfig
      (some sampleQuery) (some sampleDocument) sampleQuery sampleDocument).2.2.2.2.2.2.1,
   (typeof_guards_unreachable sampleGenerators sampleBuiltins sampleConfig
      (some sampleQuery) (some sampleDocument) sampleQuery sampleDocument).2.2.2.2.2.2.2.1,
   (typeof_guards_unreachable sampleGenerators sampleBuiltins sampleConfig
      (some sampleQuery) (some sampleDocument) sampleQuery sampleDocument).2.2.2.2.2.2.2.2.2⟩

theorem isEmptyQueryParams_eq (p : QueryParams) (h : isEmptyQueryParams p = true) :
    p = {} := by
  obtain ⟨i, f, s, fi, l, o⟩ := p
  simp only [isEmptyQueryParams, Bool.and_eq_true, Option.isNone_iff_eq_none] at h
  obtain ⟨⟨⟨⟨⟨h1, h2⟩, h3⟩, h4⟩, h5⟩, h6⟩ := h
  subst h1; subst h2; subst h3; subst h4; subst h5; subst h6
  rfl

/-- Claim C7: `find` builds the request by applying, for each concern
(inclusion, filtering, sorting, fields, final assembly), the generator
configured in `config.urlBuilder` when one is provided and the default
otherwise (`effectiveGenerators`); each concern's parameter is produced only
when the corresponding key is present in `query.params` (`concernParam`
yields the empty string for an absent key); limit and offset are always
encoded with the fixed forms "page[limit]=" and "page[offset]="; the final
URL concatenates `urlBuilder` with the assembled parameters. -/
theorem find_query_params_assembly (g : Generators) (b : Builtins)
    (config : NgrxJsonApiConfig) (q : Query) :
    find g b config (some q) =
      Except.ok
        { method := RequestMethod.Get,
          url := jsStr (urlBuilder config b q "GET") ++
            (effectiveGenerators g config).generateQueryParams
              (concernParam (effectiveGenerators g config).generateIncludedQueryParams
                (q.params.bind (fun p => p.«include»)))
              (concernParam (effectiveGenerators g config).generateFilteringQueryParams
                (q.params.bind (fun p => p.filtering)))
              (concernParam (effectiveGenerators g config).generateSortingQueryParams
                (q.params.bind (fun p => p.sorting)))
              (concernParam (effectiveGenerators g config).generateFieldsQueryParams
                (q.params.bind (fun p => p.fields)))
              (concernParam (fun v => "page[offset]=" ++ toString v)
                (q.params.bind (fun p => p.offset)))
              (concernParam (fun v => "page[limit]=" ++ toString v)
                (q.params.bind (fun p => p.limit))),
          body := none } := by
  cases hub : config.urlBuilder with
  | none =>
    cases hq : q.params with
    | none =>
      simp [find, effectiveGenerators, concernParam, hub, hq, jsTypeof, jsStrictEq]
    | some p =>
      by_cases he : isEmptyQueryParams p
      · have hp := isEmptyQueryParams_eq p he
        subst hp
        simp [find, effectiveGenerators, concernParam, hub, hq, he, jsTypeof, jsStrictEq]
      · simp [find, effectiveGenerators, hub, hq, he, jsTypeof, jsStrictEq]
  | some ub =>
    obtain ⟨f1, f2, f3, f4, f5⟩ := ub
    cases hq : q.params with
    | none =>
      cases f1 <;> cases f2 <;> cases f3 <;> cases f4 <;> cases f5 <;>
        simp [find, effectiveGenerators, concernParam, hub, hq, jsTypeof, jsStrictEq]
    | some p =>
      by_cases he : isEmptyQueryParams p
      · have hp := isEmptyQueryParams_eq p he
        subst hp
        cases f1 <;> cases f2 <;> cases f3 <;> cases f4 <;> cases f5 <;>
          simp [find, effectiveGenerators, concernParam, hub, hq, he, jsTypeof, jsStrictEq]
      · cases f1 <;> cases f2 <;> cases f3 <;> cases f4 <;> cases f5 <;>
          simp [find, effectiveGenerators, hub, hq, he, jsTypeof, jsStrictEq]
